import Mathlib

/-!
# Verification of the invoice-processing stage-graph engine

Shallow embedding of the Langraph-InvoiceProcessWorkflow repository:
the workflow state schema (`src/state.py`), the two SQLite review-queue
stores (`src/runner.py` and `src/persistence/review_db.py`), the review
API endpoints (`src/api/server.py`), the routing functions and graph
compiler (`src/graph_builder.py`), and the stage executor
(`src/runner.py`).

Python dicts with optional keys are embedded as Lean structures with
`Option` fields (a missing key is `none`); floats are embedded as `Rat`
(every numeric literal in the source is decimal-exact and only order
comparisons matter); raising is embedded as `Except String`; the SQLite
table keyed by `checkpoint_id` is embedded as an association list; the
nondeterministic `uuid4().hex` and `datetime.now()` values are passed in
as explicit parameters.
-/

namespace InvoiceWF

/-! ## Value types of the workflow state (from `src/state.py` and the
     payload/result dict shapes in `src/runner.py`) -/

/-- One structured log line (`LogEvent` in `src/state.py`); the timestamp
and free-form metadata are dropped, keeping the identifying triple. -/
structure LogEvent where
  stage : String
  event : String
  message : String
deriving DecidableEq

/-- Serialized `LineItem` model. -/
structure LineItem where
  description : String
  quantity : Rat := 1
  unit_price : Rat := 0
  amount : Rat := 0
deriving DecidableEq

/-- Serialized `Attachment` model. -/
structure Attachment where
  filename : String
  content_type : String := "application/pdf"
  path : Option String := none
  url : Option String := none
deriving DecidableEq

/-- The nested `vendor` object inside a raw payload. -/
structure RawVendor where
  name : Option String := none
deriving DecidableEq

/-- The raw input payload dict: the keys the mock tools read from it. -/
structure RawPayload where
  invoice_id : Option String := none
  invoice_number : Option String := none
  vendor : Option RawVendor := none
  vendor_name : Option String := none
  amount : Option Rat := none
  currency : Option String := none
  po_ref : Option String := none
  force_mismatch : Option Bool := none
  line_items : Option (List LineItem) := none
deriving DecidableEq

/-- The `parsed_invoice` dict built by the `parse_line_items` mock. -/
structure ParsedInvoice where
  invoice_number : Option String := none
  vendor_name : Option String := none
  amount : Option Rat := none
  currency : Option String := none
  po_ref : Option String := none
deriving DecidableEq

/-- The `enrichment_data` dict returned by the `enrich_vendor` mock. -/
structure EnrichmentData where
  provider : String
  vendor_key : String
deriving DecidableEq

/-- The `vendor` sub-object of state (serialized `VendorProfile`). -/
structure VendorProfile where
  raw_name : Option String := none
  normalized_name : Option String := none
  tax_id : Option String := none
  gst_id : Option String := none
  pan_id : Option String := none
  credit_score : Option Rat := none
  risk_score : Option Rat := none
  enrichment_source : Option String := none
  enrichment_data : Option EnrichmentData := none
deriving DecidableEq

/-- The `risk_flags` dict computed by the `compute_flags` mock. -/
structure RiskFlags where
  high_amount : Bool := false
  missing_po : Bool := false
deriving DecidableEq

/-- The `po` artifact returned by the `fetch_po` mock. -/
structure PoData where
  po_ref : Option String := none
  total : Rat := 0
  connector : String := ""
deriving DecidableEq

/-- The `grn` artifact returned by the `fetch_grn` mock. -/
structure GrnData where
  po_ref : Option String := none
  received : Bool := false
  connector : String := ""
deriving DecidableEq

/-- One entry of the `history` artifact returned by `fetch_history`. -/
structure HistoryItem where
  invoice_id : String
  amount : Rat
  connector : String
deriving DecidableEq

/-- The `retrieval` sub-object of state (serialized `RetrievalArtifacts`). -/
structure RetrievalArtifacts where
  po : Option PoData := none
  grn : Option GrnData := none
  history : List HistoryItem := []
deriving DecidableEq

/-- One accounting entry built by `build_accounting_entries`. -/
structure AcctEntry where
  type : String
  account : String
  amount : Rat
deriving DecidableEq

/-- The `accounting_entries` sub-object (serialized `AccountingEntries`). -/
structure AccountingEntries where
  entries : List AcctEntry := []
  currency : String := "INR"
deriving DecidableEq

/-- The `erp_post_result` dict, merged from `post_to_erp` and
`schedule_payment` results via `dict.update`. -/
structure ERPPostResult where
  posted : Option Bool := none
  erp_invoice_id : Option String := none
  payment_scheduled : Option Bool := none
  payment_date : Option String := none
deriving DecidableEq

/-- Payload dict built by `_build_tool_payload` in `src/runner.py`. -/
structure ToolPayload where
  raw_payload : RawPayload := {}
  attachments : List Attachment := []
  ocr_text : Option String := none
  parsed_invoice : Option ParsedInvoice := none
  line_items : List LineItem := []
  vendor_name : Option String := none
  normalized_name : Option String := none
  po_ref : Option String := none
  amount : Option Rat := none
  selected_tool : Option String := none
deriving DecidableEq

/-- Result dict of a mock tool call: the union of the keys any of the
mock tools in `src/runner.py` can return (each tool fills a subset). -/
structure ToolResult where
  invoice_id : Option String := none
  raw_persisted : Option Bool := none
  ocr_text : Option String := none
  parsed_invoice : Option ParsedInvoice := none
  line_items : Option (List LineItem) := none
  normalized_name : Option String := none
  risk_flags : Option RiskFlags := none
  match_score : Option Rat := none
  entries : Option (List AcctEntry) := none
  currency : Option String := none
  final_payload : Option ToolPayload := none
  enrichment_source : Option String := none
  tax_id : Option String := none
  gst_id : Option String := none
  pan_id : Option String := none
  credit_score : Option Rat := none
  risk_score : Option Rat := none
  enrichment_data : Option EnrichmentData := none
  po : Option PoData := none
  grn : Option GrnData := none
  history : Option (List HistoryItem) := none
  approved : Option Bool := none
  escalation_required : Option Bool := none
  reason : Option String := none
  approver_role : Option String := none
  posted : Option Bool := none
  erp_invoice_id : Option String := none
  payment_scheduled : Option Bool := none
  payment_date : Option String := none
  vendor_notified : Option Bool := none
  finance_notified : Option Bool := none
  ok : Option Bool := none
deriving DecidableEq

/-- The `notify_result` dict: one stored result per notify ability. -/
structure NotifyResult where
  notify_vendor : Option ToolResult := none
  notify_finance_team : Option ToolResult := none
deriving DecidableEq

/-! ## The workflow state (`InvoiceWorkflowState` in `src/state.py`)

The declared TypedDict names the HITL checkpoint field
`hitl_checkpoint_id`, while the executor in `src/runner.py` reads and
writes the key `checkpoint_id`; since a Python dict accepts either key at
runtime, the embedding carries both fields. -/

structure InvoiceWorkflowState where
  invoice_id : Option String := none
  raw_payload : RawPayload := {}
  attachments : List Attachment := []
  ocr_text : Option String := none
  parsed_invoice : Option ParsedInvoice := none
  line_items : List LineItem := []
  vendor : Option VendorProfile := none
  risk_flags : Option RiskFlags := none
  retrieval : Option RetrievalArtifacts := none
  match_score : Option Rat := none
  needs_hitl : Option Bool := none
  /-- The key the executor actually writes (`state["checkpoint_id"]`). -/
  checkpoint_id : Option String := none
  /-- The checkpoint-id field declared in the TypedDict schema. -/
  hitl_checkpoint_id : Option String := none
  review_url : Option String := none
  decision : Option String := none
  accounting_entries : Option AccountingEntries := none
  approval_result : Option ToolResult := none
  erp_post_result : Option ERPPostResult := none
  notify_result : Option NotifyResult := none
  final_payload : Option ToolPayload := none
  status : Option String := none
  current_stage : Option String := none
  logs : List LogEvent := []
deriving DecidableEq

/-- `log_event` in `src/state.py`: append a structured event to
`state["logs"]`. -/
def log_event (st : InvoiceWorkflowState) (stage event message : String) :
    InvoiceWorkflowState :=
  { st with logs := st.logs ++ [⟨stage, event, message⟩] }

/-- `ensure_defaults` in `src/state.py`: default `status` to `"NEW"`
(`logs` defaults to `[]`, which the embedding's list field already is). -/
def ensure_defaults (st : InvoiceWorkflowState) : InvoiceWorkflowState :=
  { st with status := some (st.status.getD "NEW") }

/-! ## Checkpoint stores

Both `ReviewQueueDB` classes persist rows of the `human_review_queue`
table, keyed by `checkpoint_id` (primary key).  The table is embedded as
an association list; `INSERT OR REPLACE` replaces the row with the same
key; `UPDATE ... WHERE checkpoint_id = ?` maps over rows and touches the
matching one (zero matching rows is a silent no-op, as in SQLite).
`json.dumps`/`json.loads` of the state snapshot round-trips structurally
and is embedded as the identity. -/

/-- One row of `human_review_queue`. -/
structure ReviewRecord where
  checkpoint_id : String
  status : String
  review_url : String
  state : InvoiceWorkflowState
  created_at : String
  decision : Option String := none
deriving DecidableEq

/-- The `human_review_queue` table: rows keyed by primary key. -/
abbrev Store := List (String × ReviewRecord)

/-- SELECT by primary key. -/
def storeGet (store : Store) (checkpoint_id : String) : Option ReviewRecord :=
  (store.find? (fun kv => kv.1 = checkpoint_id)).map (fun kv => kv.2)

/-- INSERT OR REPLACE by primary key. -/
def storeUpsert (store : Store) (checkpoint_id : String) (rec : ReviewRecord) :
    Store :=
  (checkpoint_id, rec) :: store.filter (fun kv => kv.1 ≠ checkpoint_id)

namespace RunnerDB

/-- `ReviewQueueDB.enqueue` in `src/runner.py`: build the review URL,
then INSERT OR REPLACE the full row with status `"PAUSED"` and a cleared
decision; returns the review URL (and the updated table). -/
def enqueue (store : Store) (checkpoint_id : String)
    (state : InvoiceWorkflowState) (now : String) : String × Store :=
  let review_url := "http://localhost:8000/review/" ++ checkpoint_id
  (review_url,
   storeUpsert store checkpoint_id
     { checkpoint_id := checkpoint_id
       status := "PAUSED"
       review_url := review_url
       state := state
       created_at := now
       decision := none })

/-- `ReviewQueueDB.get` in `src/runner.py`. -/
def get (store : Store) (checkpoint_id : String) : Option ReviewRecord :=
  storeGet store checkpoint_id

/-- `ReviewQueueDB.set_decision` in `src/runner.py`: a bare
`UPDATE human_review_queue SET decision = ?` on the key; it never raises,
and does not touch the status column. -/
def set_decision (store : Store) (checkpoint_id decision : String) :
    Except String Store :=
  .ok (store.map (fun kv =>
    if kv.1 = checkpoint_id then (kv.1, { kv.2 with decision := some decision })
    else kv))

end RunnerDB

namespace PersistDB

/-- `ReviewQueueDB.enqueue` in `src/persistence/review_db.py`: same row
shape, with the URL base an optional parameter. -/
def enqueue (store : Store) (checkpoint_id : String)
    (state : InvoiceWorkflowState) (now : String)
    (review_url_base : String := "http://localhost:8000") : String × Store :=
  let review_url := review_url_base ++ "/review/" ++ checkpoint_id
  (review_url,
   storeUpsert store checkpoint_id
     { checkpoint_id := checkpoint_id
       status := "PAUSED"
       review_url := review_url
       state := state
       created_at := now
       decision := none })

/-- `ReviewQueueDB.get` in `src/persistence/review_db.py`. -/
def get (store : Store) (checkpoint_id : String) : Option ReviewRecord :=
  storeGet store checkpoint_id

/-- `ReviewQueueDB.set_decision` in `src/persistence/review_db.py`:
`UPDATE human_review_queue SET decision = ?, status = 'DECIDED'` on the
key; it never raises. -/
def set_decision (store : Store) (checkpoint_id decision : String) :
    Except String Store :=
  .ok (store.map (fun kv =>
    if kv.1 = checkpoint_id then
      (kv.1, { kv.2 with decision := some decision, status := "DECIDED" })
    else kv))

end PersistDB

/-! ## Review API endpoints (`src/api/server.py`), which wrap the
persistence-module store and raise HTTP 404 before touching a missing
record. -/

/-- `GET /review/{checkpoint_id}`. -/
def apiGetReview (store : Store) (checkpoint_id : String) :
    Except String ReviewRecord :=
  match PersistDB.get store checkpoint_id with
  | none => .error "Checkpoint not found"
  | some row => .ok row

/-- `POST /review/{checkpoint_id}/decision`: 404 when the record is
absent, otherwise delegate to the store's `set_decision`. -/
def apiSetDecision (store : Store) (checkpoint_id decision : String) :
    Except String Store :=
  match PersistDB.get store checkpoint_id with
  | none => .error "Checkpoint not found"
  | some _ => PersistDB.set_decision store checkpoint_id decision

/-! ## The declarative workflow spec (`configs/workflow.json` shape,
as consumed by `src/graph_builder.py` and `src/runner.py`) -/

/-- One entry of `stages` in the workflow document. -/
structure StageCfg where
  id : String
  abilities : List String := []
  next : Option String := none
  terminal : Bool := false
deriving DecidableEq

/-- One entry of the `abilities` map. -/
structure AbilityCfg where
  server : String
  tool : String
  bigtool_pool : Option String := none
deriving DecidableEq

/-- One candidate of a Bigtool pool. -/
structure PoolEntry where
  name : Option String := none
deriving DecidableEq

/-- The `globals.hitl` options. -/
structure HitlCfg where
  pause_status : Option String := none
  reject_status : Option String := none
deriving DecidableEq

/-- The `globals` options recognized by the engine. -/
structure GlobalsCfg where
  match_threshold : Option Rat := none
  hitl : HitlCfg := {}
deriving DecidableEq

/-- The whole workflow document. -/
structure Workflow where
  stages : List StageCfg := []
  abilities : List (String × AbilityCfg) := []
  pools : List (String × List PoolEntry) := []
  globals : GlobalsCfg := {}
deriving DecidableEq

/-- Lookup of a stage definition by id (`next(s for s in stages ...)`). -/
def findStage (wf : Workflow) (stage_id : String) : Option StageCfg :=
  wf.stages.find? (fun s => s.id = stage_id)

/-- Lookup in the `abilities` map. -/
def findAbility (wf : Workflow) (name : String) : Option AbilityCfg :=
  (wf.abilities.find? (fun kv => kv.1 = name)).map (fun kv => kv.2)

/-- Lookup in the `bigtool.pools` map (`pools.get(name, [])`). -/
def findPool (wf : Workflow) (name : String) : List PoolEntry :=
  ((wf.pools.find? (fun kv => kv.1 = name)).map (fun kv => kv.2)).getD []

/-! ## Routing functions (`src/graph_builder.py`) -/

/-- `_route_match_two_way`: log, then compare `state.match_score`
(default 0.0) against `globals.match_threshold` (default 0.85); the
in-place `log_event` on the state is returned alongside the chosen
stage name. -/
def route_match_two_way (st : InvoiceWorkflowState) (wf : Workflow) :
    InvoiceWorkflowState × String :=
  let threshold : Rat := wf.globals.match_threshold.getD 0.85
  let match_score : Rat := st.match_score.getD 0.0
  let st := log_event st "MATCH_TWO_WAY" "route_decision"
    "Routing based on match_score threshold"
  (st, if match_score < threshold then "CHECKPOINT_HITL" else "RECONCILE")

/-- `_route_hitl_decision`: log, then route on `state.decision`. -/
def route_hitl_decision (st : InvoiceWorkflowState) :
    InvoiceWorkflowState × String :=
  let decision := st.decision
  let st := log_event st "HITL_DECISION" "route_decision"
    "Routing based on human decision"
  (st, if decision = some "ACCEPT" then "RECONCILE" else "COMPLETE")

/-! ## Graph compilation (`build_graphs` / `_add_nodes_and_edges`) -/

/-- A target of a graph edge: a stage node or the END sentinel. -/
inductive GTarget where
  | node (id : String)
  | endG
deriving DecidableEq

/-- One outgoing edge declaration added by `_add_nodes_and_edges`:
either a plain `add_edge`, or one of the two `add_conditional_edges`
registrations (whose path maps are the identity on
`{CHECKPOINT_HITL, RECONCILE}` resp. `{RECONCILE, COMPLETE}`). -/
inductive GEdge where
  | direct (target : GTarget)
  | condMatch
  | condHitl
deriving DecidableEq

/-- A compiled `StateGraph`: its single `set_entry_point` entry and the
edge declaration made for each stage node. -/
structure GraphDef where
  entry : String
  edges : List (String × GEdge)
deriving DecidableEq

/-- The edge `_add_nodes_and_edges` adds for one stage, following the
source's branch order: `terminal` first, then the two conditional
stages, then the main-mode checkpoint rewiring, then `next` or END. -/
def edgeFor (main_mode : Bool) (cfg : StageCfg) : GEdge :=
  if cfg.terminal then .direct .endG
  else if cfg.id = "MATCH_TWO_WAY" then .condMatch
  else if cfg.id = "HITL_DECISION" then .condHitl
  else if main_mode ∧ cfg.id = "CHECKPOINT_HITL" then .direct .endG
  else match cfg.next with
    | some nxt => .direct (.node nxt)
    | none => .direct .endG

/-- `_add_nodes_and_edges`: one node and one edge declaration per stage
of the (already validated) stage map, plus the entry point. -/
def add_nodes_and_edges (wf : Workflow) (entry_stage : String)
    (main_mode : Bool) : GraphDef :=
  { entry := entry_stage
    edges := wf.stages.map (fun cfg => (cfg.id, edgeFor main_mode cfg)) }

/-- `_index_stages`: reject a missing/empty id, a duplicate id, and an
empty stage list; otherwise return the validated stage list. -/
def index_stages (stages : List StageCfg) : Except String (List StageCfg) :=
  let rec go (seen : List String) : List StageCfg → Except String Unit
    | [] => .ok ()
    | s :: rest =>
      if s.id = "" then .error "Each stage must have an 'id'"
      else if s.id ∈ seen then .error ("Duplicate stage id: " ++ s.id)
      else go (s.id :: seen) rest
  match go [] stages with
  | .error e => .error e
  | .ok _ =>
    if stages.isEmpty then .error "workflow.json must have non-empty 'stages'"
    else .ok stages

/-- `build_graphs`: validate the stage map, then compile the main graph
(entry `INTAKE`, checkpoint stage rewired to END) and the resume graph
(entry `HITL_DECISION`). -/
def build_graphs (wf : Workflow) : Except String (GraphDef × GraphDef) := do
  let _ ← index_stages wf.stages
  .ok (add_nodes_and_edges wf "INTAKE" true,
       add_nodes_and_edges wf "HITL_DECISION" false)

/-! ## Stage execution (`src/runner.py`) -/

/-- Python's `a or b` on an optional string: `None` and `""` are falsy. -/
def orS (a : Option String) (b : Option String) : Option String :=
  match a with
  | some s => if s = "" then b else some s
  | none => b

/-- Python's `a or b` on an optional number: `None` and `0` are falsy. -/
def orQ (a : Option Rat) (b : Option Rat) : Option Rat :=
  match a with
  | some x => if x = 0 then b else some x
  | none => b

/-- The selection context dict built in `execute_stage` (it never
contains a `preferred_tool` key, so the field defaults to `none`). -/
structure SelContext where
  stage : String
  ability : String
  raw_payload : RawPayload := {}
  attachments : List Attachment := []
  preferred_tool : Option String := none

/-- `select_from_pool`: honor an explicit `preferred_tool` when it names
a candidate, else pick the first entry (`pool[0]`; the caller has
already rejected an empty pool, matching the Python path where an
IndexError cannot occur). -/
def select_from_pool (pool : List PoolEntry) (context : SelContext) :
    Option PoolEntry :=
  match context.preferred_tool with
  | some requested =>
    match pool.find? (fun c => c.name = some requested) with
    | some c => some c
    | none => pool.head?
  | none => pool.head?

/-- `_mock_common_tool`; `fresh` stands for the `uuid4().hex` suffix. -/
def mock_common_tool (tool : String) (payload : ToolPayload)
    (fresh : String) : Except String ToolResult :=
  if tool = "accept_invoice_payload" then
    let raw := payload.raw_payload
    let invoice_id := (orS raw.invoice_id (some ("INV-" ++ fresh))).getD ""
    .ok { invoice_id := some invoice_id, raw_persisted := some true }
  else if tool = "parse_line_items" then
    let raw := payload.raw_payload
    let default_items : List LineItem :=
      [{ description := "Service", quantity := 1,
         unit_price := raw.amount.getD 0, amount := raw.amount.getD 0 }]
    let items :=
      match raw.line_items with
      | some l => if l.isEmpty then default_items else l
      | none => default_items
    let parsed : ParsedInvoice :=
      { invoice_number := raw.invoice_number <|> raw.invoice_id
        vendor_name :=
          some ((raw.vendor.bind RawVendor.name).getD
            (raw.vendor_name.getD "UNKNOWN"))
        amount := some (raw.amount.getD 0)
        currency := some (raw.currency.getD "INR")
        po_ref := raw.po_ref }
    .ok { parsed_invoice := some parsed, line_items := some items }
  else if tool = "normalize_vendor" then
    let vendor_name := payload.vendor_name.getD "UNKNOWN"
    .ok { normalized_name := some vendor_name.trim.toUpper }
  else if tool = "compute_flags" then
    let parsed := payload.parsed_invoice.getD {}
    let amount := parsed.amount.getD 0
    let flags : RiskFlags :=
      { high_amount := decide ((100000 : Rat) < amount)
        missing_po :=
          parsed.po_ref = none ∨ parsed.po_ref = some "" ∨
            parsed.po_ref = some "NA" }
    .ok { risk_flags := some flags }
  else if tool = "compute_match_score" then
    let raw := payload.raw_payload
    if raw.force_mismatch = some true then .ok { match_score := some 0.60 }
    else .ok { match_score := some 0.92 }
  else if tool = "build_accounting_entries" then
    let parsed := payload.parsed_invoice.getD {}
    let amount := parsed.amount.getD 0
    let entries : List AcctEntry :=
      [{ type := "DEBIT", account := "Expense", amount := amount },
       { type := "CREDIT", account := "Accounts Payable", amount := amount }]
    .ok { entries := some entries, currency := some (parsed.currency.getD "INR") }
  else if tool = "output_final_payload" then
    .ok { final_payload := some payload }
  else .error ("Unknown COMMON tool: " ++ tool)

/-- `_mock_atlas_tool`; `fresh` stands for the `uuid4().hex` suffix and
`now` for the current UTC date. -/
def mock_atlas_tool (tool : String) (payload : ToolPayload)
    (fresh now : String) : Except String ToolResult :=
  if tool = "ocr_extract" then
    let provider := payload.selected_tool.getD "tesseract"
    .ok { ocr_text :=
            some ("[OCR via " ++ provider ++
              "] Invoice text extracted successfully.") }
  else if tool = "enrich_vendor" then
    let provider := payload.selected_tool.getD "vendor_db"
    let normalized := payload.normalized_name.getD "UNKNOWN"
    .ok { enrichment_source := some provider
          tax_id := some "TAX-XXXX"
          gst_id := some "GST-XXXX"
          pan_id := some "PAN-XXXX"
          credit_score := some 0.78
          risk_score := some 0.25
          enrichment_data := some { provider := provider, vendor_key := normalized } }
  else if tool = "fetch_po" ∨ tool = "fetch_grn" ∨ tool = "fetch_history" then
    let connector := payload.selected_tool.getD "sap_connector"
    let po_ref := payload.po_ref
    if tool = "fetch_po" then
      .ok { po := some { po_ref := po_ref, total := 1000, connector := connector } }
    else if tool = "fetch_grn" then
      .ok { grn := some { po_ref := po_ref, received := true, connector := connector } }
    else
      .ok { history :=
              some [{ invoice_id := "INV-OLD-1", amount := 950, connector := connector }] }
  else if tool = "apply_invoice_approval_policy" then
    let amount := payload.amount.getD 0
    if (250000 : Rat) < amount then
      .ok { approved := some false, escalation_required := some true,
            reason := some "Amount exceeds auto-approve limit",
            approver_role := some "FINANCE_MANAGER" }
    else
      .ok { approved := some true, escalation_required := some false,
            reason := some "Auto-approved", approver_role := some "SYSTEM" }
  else if tool = "post_to_erp" then
    .ok { posted := some true, erp_invoice_id := some ("ERP-" ++ fresh) }
  else if tool = "schedule_payment" then
    .ok { payment_scheduled := some true, payment_date := some now }
  else if tool = "notify_vendor" then
    .ok { vendor_notified := some true }
  else if tool = "notify_finance_team" then
    .ok { finance_notified := some true }
  else if tool = "accept_or_reject_invoice" then
    .ok { ok := some true }
  else .error ("Unknown ATLAS tool: " ++ tool)

/-- `new_retrieval_artifacts` from `src/state.py`. -/
def new_retrieval_artifacts : RetrievalArtifacts := {}

/-- `_build_tool_payload`: the fixed explicit projection of state sent
to every ability call. -/
def build_tool_payload (stage_id ability_name : String)
    (st : InvoiceWorkflowState) (selected_tool : Option String) : ToolPayload :=
  let raw := st.raw_payload
  let parsed_invoice := st.parsed_invoice
  let vendor := st.vendor
  { raw_payload := raw
    attachments := st.attachments
    ocr_text := st.ocr_text
    parsed_invoice := parsed_invoice
    line_items := st.line_items
    vendor_name := orS (raw.vendor.bind RawVendor.name) raw.vendor_name
    normalized_name := vendor.bind VendorProfile.normalized_name
    po_ref := orS raw.po_ref (parsed_invoice.bind ParsedInvoice.po_ref)
    amount := orQ (parsed_invoice.bind ParsedInvoice.amount) raw.amount
    selected_tool := selected_tool }

/-- `_apply_result_to_state`: the fixed per-ability merge of a tool
result into shared state (a chain of independent `if` tests on the
ability name, with no branch for an unrecognized ability). -/
def apply_result_to_state (stage_id ability_name : String)
    (st : InvoiceWorkflowState) (result : ToolResult) : InvoiceWorkflowState :=
  let st :=
    if ability_name = "accept_invoice_payload" then
      { st with invoice_id := result.invoice_id }
    else st
  let st :=
    if ability_name = "ocr_extract" then
      { st with ocr_text := some (result.ocr_text.getD "") }
    else st
  let st :=
    if ability_name = "parse_line_items" then
      let parsed := result.parsed_invoice.getD {}
      let st := { st with parsed_invoice := some parsed,
                          line_items := result.line_items.getD [] }
      if st.vendor = none then
        { st with vendor := some { raw_name := some (parsed.vendor_name.getD "UNKNOWN") } }
      else st
    else st
  let st :=
    if ability_name = "normalize_vendor" then
      let v := st.vendor.getD {}
      { st with vendor := some { v with normalized_name := result.normalized_name } }
    else st
  let st :=
    if ability_name = "enrich_vendor" then
      let v := st.vendor.getD {}
      let v' : VendorProfile :=
        { v with enrichment_source := result.enrichment_source <|> v.enrichment_source
                 tax_id := result.tax_id <|> v.tax_id
                 gst_id := result.gst_id <|> v.gst_id
                 pan_id := result.pan_id <|> v.pan_id
                 credit_score := result.credit_score <|> v.credit_score
                 risk_score := result.risk_score <|> v.risk_score
                 enrichment_data := result.enrichment_data <|> v.enrichment_data }
      { st with vendor := some v' }
    else st
  let st :=
    if ability_name = "compute_flags" then
      { st with risk_flags := some (result.risk_flags.getD {}) }
    else st
  let st :=
    if ability_name = "fetch_po" ∨ ability_name = "fetch_grn" ∨
        ability_name = "fetch_history" then
      let r := st.retrieval.getD new_retrieval_artifacts
      let r := { r with po := result.po <|> r.po
                        grn := result.grn <|> r.grn
                        history := result.history.getD r.history }
      { st with retrieval := some r }
    else st
  let st :=
    if ability_name = "compute_match_score" then
      { st with match_score := some (result.match_score.getD 0.0) }
    else st
  let st :=
    if ability_name = "build_accounting_entries" then
      let acct : AccountingEntries :=
        { entries := result.entries.getD []
          currency := result.currency.getD "INR" }
      { st with accounting_entries := some acct }
    else st
  let st :=
    if ability_name = "apply_invoice_approval_policy" then
      { st with approval_result := some result }
    else st
  let st :=
    if ability_name = "post_to_erp" ∨ ability_name = "schedule_payment" then
      let e := st.erp_post_result.getD {}
      let e' : ERPPostResult :=
        { e with posted := result.posted <|> e.posted
                 erp_invoice_id := result.erp_invoice_id <|> e.erp_invoice_id
                 payment_scheduled := result.payment_scheduled <|> e.payment_scheduled
                 payment_date := result.payment_date <|> e.payment_date }
      { st with erp_post_result := some e' }
    else st
  let st :=
    if ability_name = "notify_vendor" then
      let n := st.notify_result.getD {}
      { st with notify_result := some { n with notify_vendor := some result } }
    else st
  let st :=
    if ability_name = "notify_finance_team" then
      let n := st.notify_result.getD {}
      { st with notify_result := some { n with notify_finance_team := some result } }
    else st
  let st :=
    if ability_name = "output_final_payload" then
      { st with final_payload := some (result.final_payload.getD {}) }
    else st
  st

/-- One iteration of the ability loop in `execute_stage`: resolve the
ability, run Bigtool selection when configured, build the payload,
dispatch to the mock server, and fold the result into state. -/
def run_ability (wf : Workflow) (fresh now : String)
    (stage_id ability_name : String) (st : InvoiceWorkflowState) :
    Except String InvoiceWorkflowState := do
  match findAbility wf ability_name with
  | none =>
    .error ("Ability '" ++ ability_name ++ "' not defined in workflow.json abilities")
  | some ability =>
    let server := ability.server
    let tool := ability.tool
    let sel ←
      (match ability.bigtool_pool with
       | none => Except.ok (st, (none : Option String))
       | some pool_name =>
         let pool_list := findPool wf pool_name
         if pool_list.isEmpty then
           Except.error ("Bigtool pool '" ++ pool_name ++
             "' is empty/missing in workflow.json")
         else
           let context : SelContext :=
             { stage := stage_id, ability := ability_name,
               raw_payload := st.raw_payload, attachments := st.attachments }
           let selected := select_from_pool pool_list context
           let selected_tool_name := selected.bind PoolEntry.name
           let st := log_event st stage_id "bigtool_select"
             ("Selected tool '" ++ selected_tool_name.getD "None" ++
              "' from pool '" ++ pool_name ++ "'")
           Except.ok (st, selected_tool_name))
    let st := sel.1
    let selected_tool_name := sel.2
    let tool_payload := build_tool_payload stage_id ability_name st selected_tool_name
    let st := log_event st stage_id "ability_call" ("Calling " ++ server ++ "." ++ tool)
    let result ←
      if server = "COMMON" then mock_common_tool tool tool_payload fresh
      else if server = "ATLAS" then mock_atlas_tool tool tool_payload fresh now
      else Except.error ("Unknown server '" ++ server ++ "' for ability '" ++
        ability_name ++ "'")
    let st := log_event st stage_id "ability_result"
      ("Result received from " ++ server ++ "." ++ tool)
    .ok (apply_result_to_state stage_id ability_name st result)

/-- The ability loop of `execute_stage`, in declared order. -/
def run_abilities (wf : Workflow) (fresh now : String) (stage_id : String) :
    List String → InvoiceWorkflowState → Except String InvoiceWorkflowState
  | [], st => .ok st
  | a :: rest, st => do
    let st ← run_ability wf fresh now stage_id a st
    run_abilities wf fresh now stage_id rest st

/-- `execute_stage` in `src/runner.py`: defaults, stage lookup, the
checkpoint-pause early return, the ability loop, and the three special
post-processing blocks (`MATCH_TWO_WAY`, `HITL_DECISION`, `COMPLETE`).
The mutable `runtime.review_db` is threaded as an explicit store. -/
def execute_stage (wf : Workflow) (store : Store) (fresh now : String)
    (stage_id : String) (state : InvoiceWorkflowState) :
    Except String (InvoiceWorkflowState × Store) := do
  let st := ensure_defaults state
  let globals_cfg := wf.globals
  match findStage wf stage_id with
  | none => .error ("Stage '" ++ stage_id ++ "' not found in workflow.json")
  | some stage_def =>
    if stage_id = "CHECKPOINT_HITL" then
      let checkpoint_id :=
        match st.checkpoint_id with
        | some c => if c = "" then fresh else c
        | none => fresh
      let st := { st with checkpoint_id := some checkpoint_id,
                          status := some (globals_cfg.hitl.pause_status.getD "PAUSED") }
      let enq := RunnerDB.enqueue store checkpoint_id st now
      let review_url := enq.1
      let store := enq.2
      let st := { st with review_url := some review_url }
      let st := log_event st stage_id "checkpoint_created"
        "Checkpoint created and state persisted for human review"
      .ok (st, store)
    else do
      let st ← run_abilities wf fresh now stage_id stage_def.abilities st
      let st :=
        if stage_id = "MATCH_TWO_WAY" then
          let threshold : Rat := globals_cfg.match_threshold.getD 0.85
          let match_score : Rat := st.match_score.getD 0.0
          let st := { st with needs_hitl := some (decide (match_score < threshold)) }
          log_event st stage_id "match_evaluated"
            "Computed needs_hitl based on match_threshold"
        else st
      let st ←
        if stage_id = "HITL_DECISION" then
          match st.checkpoint_id with
          | none => Except.error "HITL_DECISION requires state['checkpoint_id']"
          | some checkpoint_id =>
            if checkpoint_id = "" then
              Except.error "HITL_DECISION requires state['checkpoint_id']"
            else
              match RunnerDB.get store checkpoint_id with
              | none =>
                Except.error ("No review queue record found for checkpoint_id=" ++
                  checkpoint_id)
              | some row =>
                let decision := row.decision
                let st := { st with decision := decision }
                let st := log_event st stage_id "hitl_decision_loaded"
                  "Loaded human decision from DB"
                if decision = some "REJECT" then
                  let reject_status :=
                    globals_cfg.hitl.reject_status.getD "REQUIRES_MANUAL_HANDLING"
                  Except.ok { st with status := some reject_status }
                else Except.ok st
        else Except.ok st
      let st :=
        if stage_id = "COMPLETE" then
          if st.status ≠ some "REQUIRES_MANUAL_HANDLING" ∧ st.status ≠ some "FAILED" then
            { st with status := some "COMPLETED" }
          else st
        else st
      .ok (st, store)

/-- The node wrapper `make_stage_node` builds in `src/graph_builder.py`
(with a runtime always provided, as in the demo wiring): defaults,
`current_stage`, the NEW-to-IN_PROGRESS upgrade, the start/end log
events, and the call into `execute_stage`. -/
def stage_node (wf : Workflow) (store : Store) (fresh now : String)
    (stage_id : String) (state : InvoiceWorkflowState) :
    Except String (InvoiceWorkflowState × Store) := do
  let st := ensure_defaults state
  let st := { st with current_stage := some stage_id }
  let st :=
    if st.status = none ∨ st.status = some "NEW" then
      { st with status := some "IN_PROGRESS" }
    else st
  let st := log_event st stage_id "stage_start" ("Starting stage " ++ stage_id)
  let r ← execute_stage wf store fresh now stage_id st
  .ok (log_event r.1 stage_id "stage_end" ("Completed stage " ++ stage_id), r.2)

/-- Driving a compiled graph from a given entry node: execute the node,
then follow the edge `_add_nodes_and_edges` declared for it (terminal
edge, conditional router, main-mode checkpoint stop, or the `next`
edge), until END or the recursion-limit fuel runs out. -/
def run_graph (wf : Workflow) (fresh now : String) (main_mode : Bool) :
    Nat → Store → String → InvoiceWorkflowState →
    Except String (InvoiceWorkflowState × Store)
  | 0, _, _, _ => .error "GraphRecursionError"
  | fuel + 1, store, stage_id, st => do
    let r ← stage_node wf store fresh now stage_id st
    let st := r.1
    let store := r.2
    match findStage wf stage_id with
    | none => .error ("Stage '" ++ stage_id ++ "' not found in workflow.json")
    | some cfg =>
      if cfg.terminal then .ok (st, store)
      else if stage_id = "MATCH_TWO_WAY" then
        let rt := route_match_two_way st wf
        run_graph wf fresh now main_mode fuel store rt.2 rt.1
      else if stage_id = "HITL_DECISION" then
        let rt := route_hitl_decision st
        run_graph wf fresh now main_mode fuel store rt.2 rt.1
      else if main_mode ∧ stage_id = "CHECKPOINT_HITL" then .ok (st, store)
      else
        match cfg.next with
        | some nxt => run_graph wf fresh now main_mode fuel store nxt st
        | none => .ok (st, store)

/-- Modelled from the spec: the declarative workflow document
`configs/workflow.json` is not part of the source tree; its stage chain,
abilities, pools and globals are reconstructed from the spec (the fixed
intake, understand, prepare, retrieve, two-way match,
checkpoint/reconcile fork, approve, posting, complete sequence; match
threshold 0.85; pause status `PAUSED`; reject status
`REQUIRES_MANUAL_HANDLING`) and from the ability, tool, and pool names
the mock servers in `src/runner.py` recognize. -/
def demoWorkflow : Workflow :=
  { stages :=
      [ { id := "INTAKE", abilities := ["accept_invoice_payload"],
          next := some "UNDERSTAND" },
        { id := "UNDERSTAND", abilities := ["ocr_extract", "parse_line_items"],
          next := some "PREPARE" },
        { id := "PREPARE",
          abilities := ["normalize_vendor", "enrich_vendor", "compute_flags"],
          next := some "RETRIEVE" },
        { id := "RETRIEVE", abilities := ["fetch_po", "fetch_grn", "fetch_history"],
          next := some "MATCH_TWO_WAY" },
        { id := "MATCH_TWO_WAY", abilities := ["compute_match_score"] },
        { id := "CHECKPOINT_HITL", abilities := [], next := some "HITL_DECISION" },
        { id := "HITL_DECISION", abilities := ["accept_or_reject_invoice"] },
        { id := "RECONCILE", abilities := ["build_accounting_entries"],
          next := some "APPROVE" },
        { id := "APPROVE", abilities := ["apply_invoice_approval_policy"],
          next := some "POSTING" },
        { id := "POSTING", abilities := ["post_to_erp", "schedule_payment"],
          next := some "COMPLETE" },
        { id := "COMPLETE", abilities := ["output_final_payload"],
          terminal := true } ]
    abilities :=
      [ ("accept_invoice_payload",
         { server := "COMMON", tool := "accept_invoice_payload" }),
        ("ocr_extract",
         { server := "ATLAS", tool := "ocr_extract",
           bigtool_pool := some "ocr_tools" }),
        ("parse_line_items", { server := "COMMON", tool := "parse_line_items" }),
        ("normalize_vendor", { server := "COMMON", tool := "normalize_vendor" }),
        ("enrich_vendor",
         { server := "ATLAS", tool := "enrich_vendor",
           bigtool_pool := some "vendor_enrichment" }),
        ("compute_flags", { server := "COMMON", tool := "compute_flags" }),
        ("fetch_po",
         { server := "ATLAS", tool := "fetch_po",
           bigtool_pool := some "erp_connectors" }),
        ("fetch_grn",
         { server := "ATLAS", tool := "fetch_grn",
           bigtool_pool := some "erp_connectors" }),
        ("fetch_history",
         { server := "ATLAS", tool := "fetch_history",
           bigtool_pool := some "erp_connectors" }),
        ("compute_match_score",
         { server := "COMMON", tool := "compute_match_score" }),
        ("accept_or_reject_invoice",
         { server := "ATLAS", tool := "accept_or_reject_invoice" }),
        ("build_accounting_entries",
         { server := "COMMON", tool := "build_accounting_entries" }),
        ("apply_invoice_approval_policy",
         { server := "ATLAS", tool := "apply_invoice_approval_policy" }),
        ("post_to_erp", { server := "ATLAS", tool := "post_to_erp" }),
        ("schedule_payment", { server := "ATLAS", tool := "schedule_payment" }),
        ("output_final_payload",
         { server := "COMMON", tool := "output_final_payload" }) ]
    pools :=
      [ ("ocr_tools", [{ name := some "tesseract" }, { name := some "easyocr" }]),
        ("vendor_enrichment", [{ name := some "vendor_db" }]),
        ("erp_connectors", [{ name := some "sap_connector" }]) ]
    globals :=
      { match_threshold := some 0.85
        hitl := { pause_status := some "PAUSED"
                  reject_status := some "REQUIRES_MANUAL_HANDLING" } } }

/-! # Theorems -/

/-! ## C1: the matching-stage router -/

/-- C1: the compiled matching-stage router sends execution to
`CHECKPOINT_HITL` exactly when the state's match score (defaulted to
0.0 when unset) is strictly below the effective threshold
(`globals.match_threshold`, defaulted to 0.85 when unset), and to
`RECONCILE` otherwise; on the boundary `score = threshold` it routes to
`RECONCILE`. -/
theorem match_router_threshold (st : InvoiceWorkflowState) (wf : Workflow)
    (score threshold : Rat)
    (hs : st.match_score.getD 0.0 = score)
    (ht : wf.globals.match_threshold.getD 0.85 = threshold) :
    ((route_match_two_way st wf).2 = "CHECKPOINT_HITL" ↔ score < threshold) ∧
    ((route_match_two_way st wf).2 = "RECONCILE" ↔ ¬ score < threshold) ∧
    (score = threshold → (route_match_two_way st wf).2 = "RECONCILE") := by
  subst hs ht
  unfold route_match_two_way
  by_cases h : st.match_score.getD 0.0 < wf.globals.match_threshold.getD 0.85
  · simp [h]
    exact ne_of_lt h
  · simp [h]

/-- Concrete instances of the matching router: a score of 0.60 against
the default threshold pauses, 0.92 reconciles, and a score exactly at
the threshold reconciles. -/
theorem match_router_threshold_witness :
    (route_match_two_way { match_score := some 0.60 } {}).2 = "CHECKPOINT_HITL" ∧
    (route_match_two_way { match_score := some 0.92 } {}).2 = "RECONCILE" ∧
    (route_match_two_way { match_score := some 0.85 } {}).2 = "RECONCILE" :=
  ⟨(match_router_threshold { match_score := some 0.60 } {} 0.60 0.85 rfl rfl).1.mpr
      (by norm_num),
   (match_router_threshold { match_score := some 0.92 } {} 0.92 0.85 rfl rfl).2.1.mpr
      (by norm_num),
   (match_router_threshold { match_score := some 0.85 } {} 0.85 0.85 rfl rfl).2.2 rfl⟩

/-! ## C2: the decision-reload router -/

/-- C2: the decision-reload router returns `RECONCILE` exactly when the
state's decision is `ACCEPT`, and `COMPLETE` for every other decision
value (including `REJECT`, a missing decision, and any unrecognized
string); it is total, never an error. -/
theorem hitl_router_decision (st : InvoiceWorkflowState) :
    ((route_hitl_decision st).2 = "RECONCILE" ↔ st.decision = some "ACCEPT") ∧
    (st.decision ≠ some "ACCEPT" → (route_hitl_decision st).2 = "COMPLETE") ∧
    ((route_hitl_decision st).2 = "RECONCILE" ∨
      (route_hitl_decision st).2 = "COMPLETE") := by
  unfold route_hitl_decision
  by_cases h : st.decision = some "ACCEPT" <;> simp [h]

/-! ## C5: checkpoint-store round-trip -/

/-- C5: in both store implementations, `enqueue id S` followed by
`get id` returns a record whose state snapshot is structurally equal to
`S`, whose status is the pause status `"PAUSED"` (the hard-coded default
pause status), and whose decision is cleared — an upsert over whatever
record (decided or not) was previously stored under the id. -/
theorem enqueue_get_roundtrip (store : Store) (checkpoint_id : String)
    (S : InvoiceWorkflowState) (now : String) :
    (RunnerDB.get (RunnerDB.enqueue store checkpoint_id S now).2 checkpoint_id =
      some { checkpoint_id := checkpoint_id
             status := "PAUSED"
             review_url := (RunnerDB.enqueue store checkpoint_id S now).1
             state := S
             created_at := now
             decision := none }) ∧
    (PersistDB.get (PersistDB.enqueue store checkpoint_id S now).2 checkpoint_id =
      some { checkpoint_id := checkpoint_id
             status := "PAUSED"
             review_url := (PersistDB.enqueue store checkpoint_id S now).1
             state := S
             created_at := now
             decision := none }) := by
  constructor <;>
    simp [RunnerDB.get, RunnerDB.enqueue, PersistDB.get, PersistDB.enqueue,
      storeGet, storeUpsert, List.find?_cons]

/-! ## Shared helper lemmas about the store embedding -/

/-- A keyed UPDATE seen through a lookup on the same key: it rewrites
the stored record pointwise. -/
theorem storeGet_map_update (store : Store) (k : String)
    (g : ReviewRecord → ReviewRecord) :
    storeGet (store.map (fun kv => if kv.1 = k then (kv.1, g kv.2) else kv)) k
      = (storeGet store k).map g := by
  induction store with
  | nil => rfl
  | cons hd tl ih =>
    by_cases h : hd.1 = k
    · simp [storeGet, List.find?_cons, h]
    · simpa [storeGet, List.find?_cons, h] using ih

/-- A keyed UPDATE matching no row leaves the table unchanged. -/
theorem map_update_of_get_none (store : Store) (k : String)
    (g : ReviewRecord → ReviewRecord)
    (h : storeGet store k = none) :
    store.map (fun kv => if kv.1 = k then (kv.1, g kv.2) else kv) = store := by
  induction store with
  | nil => rfl
  | cons hd tl ih =>
    by_cases hh : hd.1 = k
    · exfalso
      simp [storeGet, List.find?_cons, hh] at h
    · have hfind : (hd :: tl).find? (fun kv => kv.1 = k) =
          tl.find? (fun kv => kv.1 = k) :=
        List.find?_cons_of_neg _ (by simpa using hh)
      have h' : storeGet tl k = none := by
        simpa [storeGet, hfind] using h
      simp [hh, ih h']

/-! ## C6: `set_decision` on unknown and known ids -/

/-- C6 counterexample: `set_decision` on an id with no record does not
fail — in both implementations it returns normally (the UPDATE matches
zero rows) and leaves the store without a record for the id. -/
theorem set_decision_unknown_id_no_failure :
    PersistDB.set_decision ([] : Store) "cp-1" "ACCEPT" = .ok [] ∧
    RunnerDB.set_decision ([] : Store) "cp-1" "ACCEPT" = .ok [] ∧
    PersistDB.get ([] : Store) "cp-1" = none :=
  ⟨rfl, rfl, rfl⟩

/-- C6 (amended): at the store level `set_decision` never fails — on an
unknown id it is a silent no-op (the not-found failure is raised by the
review API endpoint, which checks existence before calling the store);
on a known id a subsequent `get` returns the written decision and the
`"DECIDED"` status marker. -/
theorem set_decision_behavior (store : Store) (checkpoint_id decision : String) :
    (PersistDB.get store checkpoint_id = none →
      PersistDB.set_decision store checkpoint_id decision = .ok store ∧
      apiSetDecision store checkpoint_id decision = .error "Checkpoint not found") ∧
    (∀ rec store', PersistDB.get store checkpoint_id = some rec →
      PersistDB.set_decision store checkpoint_id decision = .ok store' →
      PersistDB.get store' checkpoint_id =
        some { rec with decision := some decision, status := "DECIDED" }) := by
  constructor
  · intro hnone
    refine ⟨?_, ?_⟩
    · simp only [PersistDB.set_decision, Except.ok.injEq]
      exact map_update_of_get_none store checkpoint_id
        (fun r => { r with decision := some decision, status := "DECIDED" }) hnone
    · simp [apiSetDecision, hnone]
  · intro rec store' hget hset
    simp only [PersistDB.set_decision, Except.ok.injEq] at hset
    subst hset
    have h := storeGet_map_update store checkpoint_id
      (fun r => { r with decision := some decision, status := "DECIDED" })
    simp only [PersistDB.get] at hget ⊢
    simp only [h, hget]
    rfl

/-- C6 witness: on a store holding one record under `"cp-1"`, a
decision write followed by a `get` yields that decision and the
`"DECIDED"` status; on an unknown id the API endpoint raises not-found
while the store-level call is a no-op. -/
theorem set_decision_behavior_witness :
    (PersistDB.get
        ((PersistDB.set_decision
            (PersistDB.enqueue ([] : Store) "cp-1" {} "t0").2
            "cp-1" "REJECT").toOption.getD [])
        "cp-1" =
      some { checkpoint_id := "cp-1", status := "DECIDED"
             review_url := "http://localhost:8000/review/cp-1"
             state := {}, created_at := "t0", decision := some "REJECT" }) ∧
    apiSetDecision ([] : Store) "cp-9" "ACCEPT" = .error "Checkpoint not found" := by
  constructor
  · have h := (set_decision_behavior
      (PersistDB.enqueue ([] : Store) "cp-1" {} "t0").2 "cp-1" "REJECT").2
      { checkpoint_id := "cp-1", status := "PAUSED"
        review_url := "http://localhost:8000/review/cp-1"
        state := {}, created_at := "t0", decision := none }
      ((PersistDB.set_decision
          (PersistDB.enqueue ([] : Store) "cp-1" {} "t0").2
          "cp-1" "REJECT").toOption.getD [])
      (by rfl) (by rfl)
    exact h
  · exact ((set_decision_behavior ([] : Store) "cp-9" "ACCEPT").1 rfl).2

/-! ## C10: behavioral comparison of the two store implementations -/

/-- C10 counterexample: after the same `enqueue` and `set_decision`
sequence on the same id, the two `ReviewQueueDB` implementations hold
different records — the persistence-module one marks the status
`"DECIDED"`, the runner-module one leaves it `"PAUSED"`. -/
theorem runner_persist_set_decision_differ :
    RunnerDB.set_decision (RunnerDB.enqueue ([] : Store) "cp-1" {} "t0").2
        "cp-1" "ACCEPT" =
      .ok [("cp-1",
        { checkpoint_id := "cp-1", status := "PAUSED"
          review_url := "http://localhost:8000/review/cp-1"
          state := {}, created_at := "t0", decision := some "ACCEPT" })] ∧
    PersistDB.set_decision (PersistDB.enqueue ([] : Store) "cp-1" {} "t0").2
        "cp-1" "ACCEPT" =
      .ok [("cp-1",
        { checkpoint_id := "cp-1", status := "DECIDED"
          review_url := "http://localhost:8000/review/cp-1"
          state := {}, created_at := "t0", decision := some "ACCEPT" })] ∧
    ("PAUSED" : String) ≠ "DECIDED" :=
  ⟨rfl, rfl, by decide⟩

/-- C10 (amended): the two implementations agree on `enqueue` (at the
persistence module's default URL base) and on `get`, and `set_decision`
writes the same decision in both; they diverge only in the status
column after `set_decision` — the runner-module store leaves the status
untouched while the persistence-module store sets it to `"DECIDED"`. -/
theorem runner_persist_equivalence (store : Store) (checkpoint_id : String)
    (S : InvoiceWorkflowState) (now decision : String) :
    RunnerDB.enqueue store checkpoint_id S now =
      PersistDB.enqueue store checkpoint_id S now ∧
    RunnerDB.get store checkpoint_id = PersistDB.get store checkpoint_id ∧
    (∀ s1 s2, RunnerDB.set_decision store checkpoint_id decision = .ok s1 →
      PersistDB.set_decision store checkpoint_id decision = .ok s2 →
      (storeGet s1 checkpoint_id).map ReviewRecord.decision =
        (storeGet s2 checkpoint_id).map ReviewRecord.decision ∧
      (storeGet s1 checkpoint_id).map ReviewRecord.status =
        (storeGet store checkpoint_id).map ReviewRecord.status ∧
      (storeGet s2 checkpoint_id).map ReviewRecord.status =
        (storeGet store checkpoint_id).map (fun _ => "DECIDED")) := by
  refine ⟨rfl, rfl, ?_⟩
  intro s1 s2 h1 h2
  simp only [RunnerDB.set_decision, Except.ok.injEq] at h1
  simp only [PersistDB.set_decision, Except.ok.injEq] at h2
  subst h1 h2
  have hr := storeGet_map_update store checkpoint_id
    (fun r => { r with decision := some decision })
  have hp := storeGet_map_update store checkpoint_id
    (fun r => { r with decision := some decision, status := "DECIDED" })
  simp only [hr, hp]
  cases storeGet store checkpoint_id <;> simp

/-! ## C3: the checkpoint-pause stage -/

/-- C3: executing `CHECKPOINT_HITL` on any state (for any workflow that
defines the stage) succeeds and (a) keeps an already-set checkpoint id
and mints the fresh identifier only when none was set; (b) sets the
status to the configured `hitl.pause_status` (default `"PAUSED"`);
(c) persists the entire current state (with the id and pause status
applied) into the checkpoint store under that id; (d) stores the
returned review URL into the state; and (e) appends exactly one
`checkpoint_created` log event — in particular no `ability_call` events,
i.e. no abilities execute. -/
theorem checkpoint_stage_spec (wf : Workflow) (store : Store)
    (fresh now : String) (st : InvoiceWorkflowState) (cfg : StageCfg)
    (hfind : findStage wf "CHECKPOINT_HITL" = some cfg) :
    ∃ st' store' cid,
      execute_stage wf store fresh now "CHECKPOINT_HITL" st = .ok (st', store') ∧
      st'.checkpoint_id = some cid ∧
      (∀ c, st.checkpoint_id = some c → c ≠ "" → cid = c) ∧
      (st.checkpoint_id = none → cid = fresh) ∧
      st'.status = some (wf.globals.hitl.pause_status.getD "PAUSED") ∧
      storeGet store' cid =
        some { checkpoint_id := cid
               status := "PAUSED"
               review_url := "http://localhost:8000/review/" ++ cid
               state := { ensure_defaults st with
                          checkpoint_id := some cid
                          status := some (wf.globals.hitl.pause_status.getD "PAUSED") }
               created_at := now
               decision := none } ∧
      st'.review_url = some ("http://localhost:8000/review/" ++ cid) ∧
      st'.logs = st.logs ++ [⟨"CHECKPOINT_HITL", "checkpoint_created",
        "Checkpoint created and state persisted for human review"⟩] := by
  cases hcp : st.checkpoint_id with
  | none =>
    simp [execute_stage, hfind, hcp, ensure_defaults, RunnerDB.enqueue,
      storeUpsert, storeGet, log_event, List.find?_cons]
    refine ⟨_, _, ⟨rfl, rfl⟩, ?_⟩
    simp [List.find?_cons]
  | some c =>
    by_cases hc : c = ""
    · subst hc
      simp [execute_stage, hfind, hcp, ensure_defaults, RunnerDB.enqueue,
        storeUpsert, storeGet, log_event, List.find?_cons]
      refine ⟨_, _, ⟨rfl, rfl⟩, ?_⟩
      simp [List.find?_cons]
    · simp [execute_stage, hfind, hcp, hc, ensure_defaults, RunnerDB.enqueue,
        storeUpsert, storeGet, log_event, List.find?_cons]
      refine ⟨_, _, ⟨rfl, rfl⟩, ?_⟩
      simp [List.find?_cons, hc]

/-- C3 witness: the checkpoint stage of the demo workflow, run on the
empty state with fresh id `"abc123"`, pauses and persists. -/
theorem checkpoint_stage_spec_witness :
    ∃ st' store' cid,
      execute_stage demoWorkflow [] "abc123" "t0" "CHECKPOINT_HITL" {} =
        .ok (st', store') ∧
      st'.checkpoint_id = some cid ∧
      (∀ c, ({} : InvoiceWorkflowState).checkpoint_id = some c → c ≠ "" → cid = c) ∧
      (({} : InvoiceWorkflowState).checkpoint_id = none → cid = "abc123") ∧
      st'.status = some (demoWorkflow.globals.hitl.pause_status.getD "PAUSED") ∧
      storeGet store' cid =
        some { checkpoint_id := cid
               status := "PAUSED"
               review_url := "http://localhost:8000/review/" ++ cid
               state := { ensure_defaults {} with
                          checkpoint_id := some cid
                          status := some (demoWorkflow.globals.hitl.pause_status.getD "PAUSED") }
               created_at := "t0"
               decision := none } ∧
      st'.review_url = some ("http://localhost:8000/review/" ++ cid) ∧
      st'.logs = ({} : InvoiceWorkflowState).logs ++
        [⟨"CHECKPOINT_HITL", "checkpoint_created",
          "Checkpoint created and state persisted for human review"⟩] :=
  checkpoint_stage_spec demoWorkflow [] "abc123" "t0" {} _ rfl

/-! ## C9: the PAUSED state and the declared schema field -/

/-- C9 (the code evaluated at the failing input): pausing does populate
a checkpoint id and a review URL and sets the pause status, but the key
the executor populates is the undeclared `checkpoint_id` key — the
`hitl_checkpoint_id` field declared in the `InvoiceWorkflowState`
schema (and read by the demo caller) stays unset. -/
theorem paused_state_schema_field (wf : Workflow) (store : Store)
    (fresh now : String) (st : InvoiceWorkflowState) (cfg : StageCfg)
    (hfind : findStage wf "CHECKPOINT_HITL" = some cfg)
    (hdecl : st.hitl_checkpoint_id = none) :
    ∃ st' store',
      execute_stage wf store fresh now "CHECKPOINT_HITL" st = .ok (st', store') ∧
      st'.status = some (wf.globals.hitl.pause_status.getD "PAUSED") ∧
      (∃ c, st'.checkpoint_id = some c) ∧
      (∃ u, st'.review_url = some u) ∧
      st'.hitl_checkpoint_id = none := by
  simp only [execute_stage, hfind]
  refine ⟨_, _, rfl, ?_, ?_, ?_, ?_⟩ <;>
    simp [log_event, ensure_defaults, hdecl]

/-- C9 witness: the demo workflow's checkpoint stage on the empty
state. -/
theorem paused_state_schema_field_witness :
    ∃ st' store',
      execute_stage demoWorkflow [] "abc123" "t0" "CHECKPOINT_HITL" {} =
        .ok (st', store') ∧
      st'.status = some (demoWorkflow.globals.hitl.pause_status.getD "PAUSED") ∧
      (∃ c, st'.checkpoint_id = some c) ∧
      (∃ u, st'.review_url = some u) ∧
      st'.hitl_checkpoint_id = none :=
  paused_state_schema_field demoWorkflow [] "abc123" "t0" {} _ rfl rfl

/-! ## C7: decision-reload error handling -/

/-- C7: executing the decision-reload stage with no usable
`checkpoint_id` in state fails with the missing-checkpoint error (not a
silent no-op), and with a set `checkpoint_id` that has no record in the
store it fails with the not-found error rather than proceeding. -/
theorem hitl_decision_requires_checkpoint (store : Store)
    (fresh now : String) (st : InvoiceWorkflowState) :
    (st.checkpoint_id = none →
      execute_stage demoWorkflow store fresh now "HITL_DECISION" st =
        .error "HITL_DECISION requires state['checkpoint_id']") ∧
    (∀ cid, st.checkpoint_id = some cid → cid ≠ "" →
      storeGet store cid = none →
      execute_stage demoWorkflow store fresh now "HITL_DECISION" st =
        .error ("No review queue record found for checkpoint_id=" ++ cid)) := by
  constructor
  · intro hcp
    simp [execute_stage, demoWorkflow, findStage, run_abilities, run_ability,
      findAbility, mock_atlas_tool, apply_result_to_state, build_tool_payload,
      log_event, ensure_defaults, Bind.bind, Except.bind, hcp]
  · intro cid hcp hne hget
    simp [execute_stage, demoWorkflow, findStage, run_abilities, run_ability,
      findAbility, mock_atlas_tool, apply_result_to_state, build_tool_payload,
      log_event, ensure_defaults, RunnerDB.get, Bind.bind, Except.bind,
      hcp, hne, hget]

/-- C7 witness: both failure modes at concrete inputs — an empty state
(no checkpoint id) and a state holding an id unknown to the store. -/
theorem hitl_decision_requires_checkpoint_witness :
    execute_stage demoWorkflow [] "f" "t0" "HITL_DECISION" {} =
      .error "HITL_DECISION requires state['checkpoint_id']" ∧
    execute_stage demoWorkflow [] "f" "t0" "HITL_DECISION"
        { checkpoint_id := some "cp-9" } =
      .error ("No review queue record found for checkpoint_id=" ++ "cp-9") :=
  ⟨(hitl_decision_requires_checkpoint [] "f" "t0" {}).1 rfl,
   (hitl_decision_requires_checkpoint [] "f" "t0"
      { checkpoint_id := some "cp-9" }).2 "cp-9" rfl (by decide) rfl⟩

/-- C10 witness for the amended equivalence, at a concrete store. -/
theorem runner_persist_equivalence_witness :
    (storeGet [("cp-1",
        { checkpoint_id := "cp-1", status := "PAUSED"
          review_url := "http://localhost:8000/review/cp-1"
          state := {}, created_at := "t0",
          decision := (some "ACCEPT" : Option String) })] "cp-1").map
        ReviewRecord.decision =
      (storeGet [("cp-1",
        { checkpoint_id := "cp-1", status := "DECIDED"
          review_url := "http://localhost:8000/review/cp-1"
          state := {}, created_at := "t0",
          decision := (some "ACCEPT" : Option String) })] "cp-1").map
        ReviewRecord.decision := by
  have h := ((runner_persist_equivalence
      (PersistDB.enqueue ([] : Store) "cp-1" {} "t0").2 "cp-1" {} "t0"
      "ACCEPT").2.2 _ _ rfl rfl).1
  exact h

/-! ## C8: compiled graph structure -/

/-- The duplicate scan of `_index_stages` accepts only stage lists whose
ids avoid the already-seen set and repeat nowhere. -/
theorem index_stages_go_nodup (stages : List StageCfg) :
    ∀ seen, index_stages.go seen stages = .ok () →
      (stages.map StageCfg.id).Nodup ∧ ∀ s ∈ stages, s.id ∉ seen := by
  induction stages with
  | nil => intro seen _; simp
  | cons hd tl ih =>
    intro seen h
    simp only [index_stages.go] at h
    by_cases h1 : hd.id = ""
    · simp [h1] at h
    · simp only [h1, if_false] at h
      by_cases h2 : hd.id ∈ seen
      · simp [h2] at h
      · simp only [h2, if_false] at h
        obtain ⟨hnd, hs⟩ := ih (hd.id :: seen) h
        refine ⟨?_, ?_⟩
        · simp only [List.map_cons, List.nodup_cons]
          exact ⟨fun hmem => by
            obtain ⟨s, hsmem, hsid⟩ := List.mem_map.mp hmem
            exact (hs s hsmem) (by simp [hsid]), hnd⟩
        · intro s hsmem
          cases hsmem with
          | head => exact h2
          | tail _ hmem => exact fun hc => (hs s hmem) (List.mem_cons_of_mem _ hc)

/-- A validated stage list has pairwise-distinct ids. -/
theorem index_stages_nodup (stages out : List StageCfg)
    (h : index_stages stages = .ok out) :
    out = stages ∧ (stages.map StageCfg.id).Nodup := by
  simp only [index_stages] at h
  cases hgo : index_stages.go [] stages with
  | error e => simp [hgo] at h
  | ok u =>
    cases u
    simp only [hgo] at h
    cases hemp : stages.isEmpty with
    | true => rw [hemp] at h; simp at h
    | false =>
      rw [hemp] at h
      simp only [Bool.false_eq_true, if_false, Except.ok.injEq] at h
      exact ⟨h.symm, (index_stages_go_nodup stages [] hgo).1⟩

/-- Filtering the compiled edge list on the source id of a stage with a
unique id yields exactly that stage's single edge declaration. -/
theorem edges_filter_unique (stages : List StageCfg) (m : Bool)
    (cfg : StageCfg) (hmem : cfg ∈ stages)
    (hnodup : (stages.map StageCfg.id).Nodup) :
    (stages.map (fun c => (c.id, edgeFor m c))).filter
        (fun e => e.1 = cfg.id) = [(cfg.id, edgeFor m cfg)] := by
  induction stages with
  | nil => cases hmem
  | cons hd tl ih =>
    simp only [List.map_cons, List.nodup_cons] at hnodup
    cases hmem with
    | head =>
      simp only [List.map_cons, List.filter_cons]
      rw [if_pos (by simp)]
      have : (tl.map (fun c => (c.id, edgeFor m c))).filter
          (fun e => e.1 = cfg.id) = [] := by
        rw [List.filter_eq_nil_iff]
        intro e he
        obtain ⟨c, hc, hce⟩ := List.mem_map.mp he
        simp only [decide_eq_true_eq]
        intro heq
        have hcid : c.id = cfg.id := by rw [← hce] at heq; exact heq
        exact hnodup.1 (List.mem_map.mpr ⟨c, hc, hcid⟩)
      rw [this]
    | tail _ hmem' =>
      have hne : ¬ hd.id = cfg.id := by
        intro hc
        exact hnodup.1 (List.mem_map.mpr ⟨cfg, hmem', hc.symm⟩)
      simp only [List.map_cons, List.filter_cons]
      rw [if_neg (by simp [hne])]
      exact ih hmem' hnodup.2

/-- C8: for every workflow that passes validation, `build_graphs` gives
every stage exactly one edge declaration per graph; a terminal stage
gets an unconditional END edge in both graphs; every non-terminal
non-branch stage gets exactly one outgoing edge to its `next` stage (or
END when `next` is absent), except that the checkpoint-pause stage is
rewired to a terminal END edge in the main graph even when the spec
marks it non-terminal; the main graph's entry is the intake stage, and
the resume graph's sole entry point is the decision-reload stage. -/
theorem build_graphs_structure (wf : Workflow) (mg rg : GraphDef)
    (hbuild : build_graphs wf = .ok (mg, rg)) :
    mg.entry = "INTAKE" ∧ rg.entry = "HITL_DECISION" ∧
    (∀ cfg ∈ wf.stages, cfg.terminal = true →
      mg.edges.filter (fun e => e.1 = cfg.id) =
        [(cfg.id, .direct .endG)] ∧
      rg.edges.filter (fun e => e.1 = cfg.id) =
        [(cfg.id, .direct .endG)]) ∧
    (∀ cfg ∈ wf.stages, cfg.terminal = false →
      cfg.id ≠ "MATCH_TWO_WAY" → cfg.id ≠ "HITL_DECISION" →
      (cfg.id = "CHECKPOINT_HITL" →
        mg.edges.filter (fun e => e.1 = cfg.id) =
          [(cfg.id, .direct .endG)]) ∧
      (cfg.id ≠ "CHECKPOINT_HITL" →
        mg.edges.filter (fun e => e.1 = cfg.id) =
          [(cfg.id, .direct (cfg.next.elim GTarget.endG GTarget.node))]) ∧
      rg.edges.filter (fun e => e.1 = cfg.id) =
        [(cfg.id, .direct (cfg.next.elim GTarget.endG GTarget.node))]) := by
  have hidx : ∃ out, index_stages wf.stages = .ok out := by
    cases hh : index_stages wf.stages with
    | error e => simp [build_graphs, hh, Bind.bind, Except.bind] at hbuild
    | ok out => exact ⟨out, rfl⟩
  obtain ⟨out, hout⟩ := hidx
  have hnodup := (index_stages_nodup wf.stages out hout).2
  have hmg : mg = add_nodes_and_edges wf "INTAKE" true := by
    simp only [build_graphs, hout, Bind.bind, Except.bind, Except.ok.injEq,
      Prod.mk.injEq] at hbuild
    exact hbuild.1.symm
  have hrg : rg = add_nodes_and_edges wf "HITL_DECISION" false := by
    simp only [build_graphs, hout, Bind.bind, Except.bind, Except.ok.injEq,
      Prod.mk.injEq] at hbuild
    exact hbuild.2.symm
  subst hmg hrg
  refine ⟨rfl, rfl, ?_, ?_⟩
  · intro cfg hmem hterm
    constructor <;>
      · rw [add_nodes_and_edges, edges_filter_unique wf.stages _ cfg hmem hnodup]
        simp [edgeFor, hterm]
  · intro cfg hmem hterm hne1 hne2
    refine ⟨?_, ?_, ?_⟩
    · intro hcp
      rw [add_nodes_and_edges, edges_filter_unique wf.stages _ cfg hmem hnodup]
      simp [edgeFor, hterm, hne1, hne2, hcp]
    · intro hcp
      rw [add_nodes_and_edges, edges_filter_unique wf.stages _ cfg hmem hnodup]
      cases hn : cfg.next <;>
        simp [edgeFor, hterm, hne1, hne2, hcp, hn]
    · rw [add_nodes_and_edges, edges_filter_unique wf.stages _ cfg hmem hnodup]
      cases hn : cfg.next <;>
        simp [edgeFor, hterm, hne1, hne2, hn]

/-- C8 witness: the spec-modelled demo workflow compiles, with the
reconciliation stage keeping its single `next` edge in both graphs, the
checkpoint stage rewired to END in the main graph only, and the resume
graph entered at the decision-reload stage. -/
theorem build_graphs_structure_witness :
    ∃ mg rg, build_graphs demoWorkflow = .ok (mg, rg) ∧
      mg.entry = "INTAKE" ∧ rg.entry = "HITL_DECISION" ∧
      mg.edges.filter (fun e => e.1 = "CHECKPOINT_HITL") =
        [("CHECKPOINT_HITL", .direct .endG)] ∧
      rg.edges.filter (fun e => e.1 = "RECONCILE") =
        [("RECONCILE", .direct (.node "APPROVE"))] := by
  have h := build_graphs_structure demoWorkflow
    (add_nodes_and_edges demoWorkflow "INTAKE" true)
    (add_nodes_and_edges demoWorkflow "HITL_DECISION" false) rfl
  have hmem1 : ({ id := "CHECKPOINT_HITL", abilities := [],
                  next := some "HITL_DECISION" } : StageCfg) ∈
      demoWorkflow.stages := by
    simp [demoWorkflow]
  have hmem2 : ({ id := "RECONCILE", abilities := ["build_accounting_entries"],
                  next := some "APPROVE" } : StageCfg) ∈
      demoWorkflow.stages := by
    simp [demoWorkflow]
  refine ⟨add_nodes_and_edges demoWorkflow "INTAKE" true,
    add_nodes_and_edges demoWorkflow "HITL_DECISION" false, rfl,
    h.1, h.2.1, ?_, ?_⟩
  · exact (h.2.2.2 _ hmem1 rfl (by decide) (by decide)).1 rfl
  · exact (h.2.2.2 _ hmem2 rfl (by decide) (by decide)).2.2

/-! ## C4: pause/resume outcomes -/

/-- Helper for the resume-run analysis: with a stored `REJECT` decision
the resume graph reaches `REQUIRES_MANUAL_HANDLING` and never
`COMPLETED`. -/
theorem resume_reject_reaches_manual_handling (store : Store)
    (fresh now : String) (st : InvoiceWorkflowState) (cid : String)
    (rec : ReviewRecord) (fuel : Nat)
    (hst : st.status = some "PAUSED")
    (hcp : st.checkpoint_id = some cid) (hne : cid ≠ "")
    (hget : storeGet store cid = some rec)
    (hdec : rec.decision = some "REJECT") :
    ∃ st' store',
      run_graph demoWorkflow fresh now false (fuel + 2) store
        "HITL_DECISION" st = .ok (st', store') ∧
      st'.status = some "REQUIRES_MANUAL_HANDLING" ∧
      st'.status ≠ some "COMPLETED" := by
  have hfuel : fuel + 2 = fuel + 1 + 1 := rfl
  rw [hfuel]
  simp [run_graph, stage_node, execute_stage, run_abilities, run_ability,
    findAbility, findStage, demoWorkflow, mock_common_tool, mock_atlas_tool,
    apply_result_to_state, build_tool_payload, route_hitl_decision,
    log_event, ensure_defaults, RunnerDB.get, Bind.bind, Except.bind,
    hst, hcp, hne, hget, hdec]

/-- Helper for the resume-run analysis: with a stored `ACCEPT` decision
the resume graph flows through reconciliation, approval and posting to
the completion stage, which sets `COMPLETED` (the status was `PAUSED`,
not a protected terminal status). -/
theorem resume_accept_reaches_completed (store : Store)
    (fresh now : String) (st : InvoiceWorkflowState) (cid : String)
    (rec : ReviewRecord) (fuel : Nat)
    (hst : st.status = some "PAUSED")
    (hcp : st.checkpoint_id = some cid) (hne : cid ≠ "")
    (hget : storeGet store cid = some rec)
    (hdec : rec.decision = some "ACCEPT") :
    ∃ st' store',
      run_graph demoWorkflow fresh now false (fuel + 5) store
        "HITL_DECISION" st = .ok (st', store') ∧
      st'.status = some "COMPLETED" := by
  have hfuel : fuel + 5 = fuel + 1 + 1 + 1 + 1 + 1 := rfl
  rw [hfuel]
  by_cases happ : (250000 : Rat) <
      (orQ (st.parsed_invoice.bind fun a => a.amount) st.raw_payload.amount).getD 0 <;>
    simp [run_graph, stage_node, execute_stage, run_abilities, run_ability,
      findAbility, findStage, findPool, select_from_pool, demoWorkflow,
      mock_common_tool, mock_atlas_tool, apply_result_to_state,
      build_tool_payload, route_hitl_decision, log_event, ensure_defaults,
      RunnerDB.get, Bind.bind, Except.bind, happ,
      hst, hcp, hne, hget, hdec]

/-- C4: for every paused run resumed through the decision-reload entry
of the compiled resume graph (checkpoint id set and backed by a store
record), a stored `REJECT` decision drives the run to status
`REQUIRES_MANUAL_HANDLING` (the configured reject status) and never
`COMPLETED` — the completion stage sets `COMPLETED` only when the
status is not already `REQUIRES_MANUAL_HANDLING` or `FAILED` — while a
stored `ACCEPT` decision drives the run to status `COMPLETED`. -/
theorem resume_decision_outcomes (store : Store) (fresh now : String)
    (st : InvoiceWorkflowState) (cid : String) (rec : ReviewRecord)
    (fuel : Nat)
    (hst : st.status = some "PAUSED")
    (hcp : st.checkpoint_id = some cid) (hne : cid ≠ "")
    (hget : storeGet store cid = some rec) :
    (rec.decision = some "REJECT" →
      ∃ st' store',
        run_graph demoWorkflow fresh now false (fuel + 2) store
          "HITL_DECISION" st = .ok (st', store') ∧
        st'.status = some "REQUIRES_MANUAL_HANDLING" ∧
        st'.status ≠ some "COMPLETED") ∧
    (rec.decision = some "ACCEPT" →
      ∃ st' store',
        run_graph demoWorkflow fresh now false (fuel + 5) store
          "HITL_DECISION" st = .ok (st', store') ∧
        st'.status = some "COMPLETED") :=
  ⟨fun hdec => resume_reject_reaches_manual_handling store fresh now st cid
      rec fuel hst hcp hne hget hdec,
   fun hdec => resume_accept_reaches_completed store fresh now st cid
      rec fuel hst hcp hne hget hdec⟩

/-- C4 witness: a concrete paused state resumed against a one-record
store, once with a stored `REJECT` and once with a stored `ACCEPT`. -/
theorem resume_decision_outcomes_witness :
    (∃ st' store',
      run_graph demoWorkflow "f" "t0" false (0 + 2)
        [("cp-1", { checkpoint_id := "cp-1", status := "PAUSED",
                    review_url := "u", state := {}, created_at := "t0",
                    decision := some "REJECT" })]
        "HITL_DECISION" { status := some "PAUSED", checkpoint_id := some "cp-1" } =
          .ok (st', store') ∧
      st'.status = some "REQUIRES_MANUAL_HANDLING" ∧
      st'.status ≠ some "COMPLETED") ∧
    (∃ st' store',
      run_graph demoWorkflow "f" "t0" false (0 + 5)
        [("cp-1", { checkpoint_id := "cp-1", status := "PAUSED",
                    review_url := "u", state := {}, created_at := "t0",
                    decision := some "ACCEPT" })]
        "HITL_DECISION" { status := some "PAUSED", checkpoint_id := some "cp-1" } =
          .ok (st', store') ∧
      st'.status = some "COMPLETED") :=
  ⟨(resume_decision_outcomes
      [("cp-1", { checkpoint_id := "cp-1", status := "PAUSED",
                  review_url := "u", state := {}, created_at := "t0",
                  decision := some "REJECT" })]
      "f" "t0" { status := some "PAUSED", checkpoint_id := some "cp-1" }
      "cp-1"
      { checkpoint_id := "cp-1", status := "PAUSED", review_url := "u",
        state := {}, created_at := "t0", decision := some "REJECT" }
      0 rfl rfl (by decide) rfl).1 rfl,
   (resume_decision_outcomes
      [("cp-1", { checkpoint_id := "cp-1", status := "PAUSED",
                  review_url := "u", state := {}, created_at := "t0",
                  decision := some "ACCEPT" })]
      "f" "t0" { status := some "PAUSED", checkpoint_id := some "cp-1" }
      "cp-1"
      { checkpoint_id := "cp-1", status := "PAUSED", review_url := "u",
        state := {}, created_at := "t0", decision := some "ACCEPT" }
      0 rfl rfl (by decide) rfl).2 rfl⟩

end InvoiceWF
